import Mathlib

/-!
Verification of the EBIOS RM core (ebiosrm_core): data models (models.py),
risk engine (generator.py) and threat-row loading (loader.py), shallowly
embedded in Lean.

Modelling conventions:
* Python strings are modelled as `List Char` (`Str`); the Python string
  operations used by the code (`split` on a one-character separator,
  `split(sep, 1)`, `strip`, `in`) are given structurally recursive
  definitions with the same semantics, so that concrete runs evaluate
  inside the kernel.  `strip`'s whitespace set is `Char.isWhitespace`.
* Python floats are modelled as exact rationals: the only float arithmetic
  in the code is `sum(scores)/len(scores)` with small integer operands, a
  mean that IEEE doubles round exactly for every value `int(..)` can
  distinguish here.
* Fallible code (raising) is modelled with `Except Str`; `max()` on an
  empty sequence, pydantic validation failures and out-of-range list
  subscripts become `Except.error` values.
* pydantic construction of records from cleaned rows is modelled field by
  field in pydantic's declaration order; file I/O stays at the boundary,
  so the loader is embedded over in-memory header and row lists exactly as
  `csv.DictReader` hands them to the cleaning loop.
-/

namespace EbiosRM

/-- Python strings, modelled as their character sequences. -/
abbrev Str := List Char

/-- Character data of a Lean string literal. -/
def str (s : String) : Str := s.data

/-- The single-quote character, used by Python message formatting. -/
def sq : Str := [Char.ofNat 39]

instance {ε α : Type} [DecidableEq ε] [DecidableEq α] : DecidableEq (Except ε α) := fun a b =>
  match a, b with
  | .ok x, .ok y =>
    if h : x = y then isTrue (by rw [h]) else isFalse (fun hc => h (by cases hc; rfl))
  | .ok _, .error _ => isFalse (fun hc => Except.noConfusion hc)
  | .error _, .ok _ => isFalse (fun hc => Except.noConfusion hc)
  | .error e, .error f =>
    if h : e = f then isTrue (by rw [h]) else isFalse (fun hc => h (by cases hc; rfl))

/-- Python `s.strip()` (whitespace charset modelled by `Char.isWhitespace`). -/
def pyStrip (s : Str) : Str :=
  ((s.dropWhile Char.isWhitespace).reverse.dropWhile Char.isWhitespace).reverse

/-- Python `s.split(sep)` for a one-character separator: splits at every
occurrence, keeping empty pieces (so `"".split(",") == [""]`). -/
def pySplit (sep : Char) : Str → List Str
  | [] => [[]]
  | c :: rest =>
    match pySplit sep rest with
    | [] => [[]]
    | g :: gs => if c = sep then [] :: g :: gs else (c :: g) :: gs

/-- Python `s.split(sep, 1)` for a one-character separator: the pieces
around the first occurrence, or `none` when the separator is absent
(Python then returns the one-element list, which the code filters out
beforehand with an `in` test). -/
def pySplitFirst (sep : Char) : Str → Option (Str × Str)
  | [] => none
  | c :: rest =>
    if c = sep then some ([], rest)
    else (pySplitFirst sep rest).map (fun p => (c :: p.1, p.2))

/-- Python `int()` on a number: truncation toward zero. -/
def pyInt (q : ℚ) : ℤ := if q < 0 then ⌈q⌉ else ⌊q⌋

/-- Python list subscription `l[i]`: negative indices count from the end,
and an index out of range raises (`none`). -/
def pyGet {α : Type} (l : List α) (i : ℤ) : Option α :=
  let j := if i < 0 then i + l.length else i
  if 0 ≤ j then l.get? j.toNat else none

/-- Python `max()` over a sequence; the empty sequence raises. -/
def pyMax (l : List ℕ) : Except Str ℕ :=
  match l with
  | [] => .error (str "max() arg is an empty sequence")
  | x :: xs => .ok (xs.foldl max x)

/-- Python `str()` of a list of strings, e.g. `['sr_id', 'ov_id']`. -/
def pyReprList (l : List Str) : Str :=
  str "[" ++ List.intercalate (str ", ") (l.map (fun x => sq ++ x ++ sq)) ++ str "]"

/-- Containment of a phrase in a string (Python `phrase in s`). -/
def hasPhrase (phrase s : Str) : Bool :=
  s.tails.any (fun t => phrase.isPrefixOf t)

/-- models.py `CriticalityLevel`: the four asset criticality levels. -/
inductive CriticalityLevel
  | low
  | medium
  | high
  | critical
deriving DecidableEq

/-- pydantic coercion of a raw string into `CriticalityLevel`: enum lookup
by value, case-sensitive; any other string is rejected. -/
def CriticalityLevel.ofStr (s : Str) : Option CriticalityLevel :=
  if s = str "Low" then some .low
  else if s = str "Medium" then some .medium
  else if s = str "High" then some .high
  else if s = str "Critical" then some .critical
  else none

/-- models.py `Asset`. -/
structure Asset where
  id : Str
  type : Str
  label : Str
  criticality : CriticalityLevel
deriving DecidableEq

/-- models.py `Asset.severity_score`: criticality as a numeric score 1-4. -/
def Asset.severity_score (a : Asset) : ℕ :=
  match a.criticality with
  | .low => 1
  | .medium => 2
  | .high => 3
  | .critical => 4

/-- pydantic construction `Asset(id=..., type=..., label=..., criticality=...)`
from already-cleaned string values; an unknown criticality string is a
validation error (message abstracted). -/
def mkAsset (id type label criticality : Str) : Except Str Asset :=
  match CriticalityLevel.ofStr criticality with
  | some c => .ok ⟨id, type, label, c⟩
  | none => .error (str "value is not a valid enumeration member")

/-- models.py `Threat`. -/
structure Threat where
  sr_id : Str
  ov_id : Str
  strategic_path : Str
  operational_steps : Str
  risk_sources : List Str := []
  targeted_objectives : List Str := []
deriving DecidableEq

/-- The message of models.py `Threat.validate_steps_format`. -/
def stepsFormatErr : Str :=
  str "operational_steps must contain " ++ sq ++ str "Step:Level" ++ sq ++ str " pairs"

/-- pydantic construction of a `Threat`; the `validate_steps_format`
validator raises when `operational_steps` is falsy or has no colon. -/
def mkThreat (sr ov path steps : Str) (rs tos : List Str) : Except Str Threat :=
  if steps = [] ∨ steps.contains ':' = false then .error stepsFormatErr
  else .ok ⟨sr, ov, path, steps, rs, tos⟩

/-- A `Threat` value that `Threat(...)` construction would accept. -/
def Threat.constructible (t : Threat) : Prop :=
  (mkThreat t.sr_id t.ov_id t.strategic_path t.operational_steps
    t.risk_sources t.targeted_objectives).isOk = true

instance (t : Threat) : Decidable t.constructible := by
  unfold Threat.constructible; infer_instance

/-- The `step_mapping` vocabulary of models.py `Threat.likelihood_score`:
{Low: 1, Medium: 2, High: 3, Critical: 4}. -/
def stepValue (level : Str) : Option ℕ :=
  if level = str "Low" then some 1
  else if level = str "Medium" then some 2
  else if level = str "High" then some 3
  else if level = str "Critical" then some 4
  else none

/-- One iteration of the `likelihood_score` loop: skip a candidate without
a colon, otherwise take what follows the first colon, strip it, and look
it up in the vocabulary (unknown levels are skipped). -/
def stepScore (step : Str) : Option ℕ :=
  match pySplitFirst ':' step with
  | none => none
  | some (_, level) => stepValue (pyStrip level)

/-- The `scores` list accumulated by models.py `Threat.likelihood_score`:
split `operational_steps` on commas, strip each piece, keep the value of
every piece that parses. -/
def Threat.scores (t : Threat) : List ℕ :=
  ((pySplit ',' t.operational_steps).map pyStrip).filterMap stepScore

/-- models.py `Threat.likelihood_score`: the mean of the accumulated
scores, or 1.0 when none accumulated (float arithmetic taken exact). -/
def Threat.likelihood_score (t : Threat) : ℚ :=
  if t.scores = [] then 1 else (t.scores.sum : ℚ) / (t.scores.length : ℚ)

/-- The 4x4 `matrix` of models.py `Threat.risk_level`
(severity rows x likelihood columns). -/
def riskMatrix : List (List Str) :=
  [[str "Low", str "Low", str "Medium", str "High"],
   [str "Low", str "Medium", str "Medium", str "High"],
   [str "Medium", str "Medium", str "High", str "Critical"],
   [str "Medium", str "High", str "Critical", str "Critical"]]

/-- models.py `Threat.risk_level`: index the matrix at
`sev_idx = min(int(severity)-1, 3)` and `lik_idx = min(int(likelihood)-1, 3)`;
Python list subscription is `pyGet`, so a negative index would wrap and an
index out of range would raise. -/
def Threat.risk_level (t : Threat) (max_asset_severity : ℤ) : Option Str :=
  (pyGet riskMatrix (min (max_asset_severity - 1) 3)).bind
    (fun row => pyGet row (min (pyInt t.likelihood_score - 1) 3))

/-- Total matrix lookup at natural indices, for stating what
`risk_level` returns. -/
def matrixEntry (i j : ℕ) : Option Str :=
  (riskMatrix.get? i).bind (fun row => row.get? j)

/-- A value of the per-threat result dict of generator.calculate_risk_levels. -/
inductive RVal
  | s (v : Str)
  | q (v : ℚ)
  | n (v : ℕ)
  | ls (v : List Str)
deriving DecidableEq

/-- The per-threat result dict, as its ordered (key, value) pairs. -/
abbrev RiskResult := List (Str × RVal)

/-- The `result` dict literal built by generator.calculate_risk_levels for
one threat, in source order. -/
def mkResult (assets : List Asset) (t : Threat) (max_severity : ℕ) (rl : Str) : RiskResult :=
  [(str "threat_id", .s t.sr_id),
   (str "threat_ov", .s t.ov_id),
   (str "strategic_path", .s t.strategic_path),
   (str "operational_steps", .s t.operational_steps),
   (str "likelihood_score", .q t.likelihood_score),
   (str "max_severity", .n max_severity),
   (str "severity_score", .n max_severity),
   (str "risk_level", .s rl),
   (str "affected_assets", .ls (assets.map Asset.id))]

/-- One iteration of the generator.calculate_risk_levels loop:
`max_severity` from `max()` over all asset severity scores (raising on an
empty asset list), then the matrix lookup (raising on an out-of-range
index), then the result dict. -/
def threatResult (assets : List Asset) (t : Threat) : Except Str RiskResult :=
  (pyMax (assets.map Asset.severity_score)).bind (fun max_severity =>
    match t.risk_level (max_severity : ℤ) with
    | some rl => .ok (mkResult assets t max_severity rl)
    | none => .error (str "list index out of range"))

/-- generator.calculate_risk_levels: one result per threat, in threat
order; any raise aborts the whole computation. -/
def calculate_risk_levels (assets : List Asset) : List Threat → Except Str (List RiskResult)
  | [] => .ok []
  | t :: ts =>
    (threatResult assets t).bind (fun r =>
      (calculate_risk_levels assets ts).bind (fun rs => .ok (r :: rs)))

/-- A raw `csv.DictReader` row handed to the loader.load_threats cleaning
loop: ordered (header, cell) pairs.  A `None` cell (short row) is modelled
as the empty string, which is what the cleaning step turns it into. -/
abbrev Row := List (Str × Str)

/-- Lookup in the Python dict built from ordered pairs by insertion with
overwrite: the last occurrence of a key wins. -/
def dictGet (d : Row) (k : Str) : Option Str := d.reverse.lookup k

/-- loader.load_threats `valid_headers`: the raw headers that are strings
and non-blank after stripping (kept unstripped). -/
def validHeadersOf (headers : List Str) : List Str :=
  headers.filter (fun h => pyStrip h != [])

/-- The loader.load_threats row-cleaning loop: drop blank keys and keys
whose stripped form is not among `valid_headers`; strip kept keys and
their values. -/
def cleanThreatRow (validHeaders : List Str) (row : Row) : Row :=
  (row.filter (fun kv => pyStrip kv.1 != [] && validHeaders.contains (pyStrip kv.1))).map
    (fun kv => (pyStrip kv.1, pyStrip kv.2))

/-- loader.load_threats `required_fields`, in source order. -/
def requiredFields : List Str :=
  [str "sr_id", str "ov_id", str "strategic_path", str "operational_steps"]

/-- loader.load_threats `missing_fields`: the required fields absent from
the cleaned row. -/
def missingFields (clean : Row) : List Str :=
  requiredFields.filter (fun f => (dictGet clean f).isNone)

/-- The message of loader.load_threats for missing required fields
(`missing_fields` rendered the way a Python f-string renders a list). -/
def missingMsg (missing : List Str) : Str :=
  str "Missing required fields: " ++ pyReprList missing

/-- pydantic rejection of a raw string fed to a `list[str]` field
(message abstracted). -/
def listTypeErr (field : Str) : Str := field ++ str " value is not a valid list"

/-- loader.load_threats optional list-field handling combined with what
pydantic then does to the field: an absent field takes the default `[]`;
a non-empty value is split on commas with each element stripped; an empty
value is left as the raw empty string by the loader's guard, which the
`list[str]` field then rejects. -/
def listFieldValue (clean : Row) (field : Str) : Except Str (List Str) :=
  match dictGet clean field with
  | none => .ok []
  | some v =>
    if v = [] then .error (listTypeErr field)
    else .ok ((pySplit ',' v).map pyStrip)

/-- `Threat(**clean_row)` on a cleaned row: pydantic validates fields in
declaration order (`operational_steps` and its validator before the two
list fields), extra keys are ignored. -/
def constructThreat (clean : Row) : Except Str Threat :=
  let steps := (dictGet clean (str "operational_steps")).getD []
  if steps = [] ∨ steps.contains ':' = false then .error stepsFormatErr
  else
    (listFieldValue clean (str "risk_sources")).bind (fun rs =>
      (listFieldValue clean (str "targeted_objectives")).bind (fun tos =>
        mkThreat ((dictGet clean (str "sr_id")).getD [])
          ((dictGet clean (str "ov_id")).getD [])
          ((dictGet clean (str "strategic_path")).getD [])
          steps rs tos))

/-- The body of the loader.load_threats row loop: clean the row, fail on
missing required fields, otherwise construct the `Threat`. -/
def processThreatRow (validHeaders : List Str) (row : Row) : Except Str Threat :=
  let clean := cleanThreatRow validHeaders row
  let missing := missingFields clean
  if missing = [] then constructThreat clean
  else .error (missingMsg missing)

/-- The wrapper loader.load_threats puts around any per-row error:
`Error processing row {row_num + 1} in {threats_file}: {e}`. -/
def rowErr (file : Str) (rowIdx : ℕ) (e : Str) : Str :=
  str "Error processing row " ++ str (toString (rowIdx + 1)) ++ str " in " ++
    file ++ str ": " ++ e

/-- The loader.load_threats row loop from row index `n`: the first
failing row aborts the whole load with the wrapped error. -/
def loadThreatRows (file : Str) (validHeaders : List Str) : ℕ → List Row → Except Str (List Threat)
  | _, [] => .ok []
  | n, r :: rs =>
    match processThreatRow validHeaders r with
    | .error e => .error (rowErr file n e)
    | .ok t =>
      match loadThreatRows file validHeaders (n + 1) rs with
      | .error e => .error e
      | .ok ts => .ok (t :: ts)

/-- loader.load_threats over in-memory data (the file-existence and
header-presence checks stay at the I/O boundary): compute the valid
headers, then run the row loop from row index 0. -/
def load_threats (file : Str) (headers : List Str) (rows : List Row) : Except Str (List Threat) :=
  loadThreatRows file (validHeadersOf headers) 0 rows

/-! ## Concrete fixtures -/

/-- A sample asset of the highest criticality. -/
def sampleAsset : Asset := ⟨str "A001", str "Data", str "Customer DB", .critical⟩

/-- A sample threat whose two High steps give likelihood 3.0. -/
def sampleThreat : Threat :=
  ⟨str "SR001", str "OV001", str "External Attack", str "S1:High,S2:High", [], []⟩

/-- The key list each engine result dict actually carries, in source
order (`threat_ov`, not `ov_id`). -/
def actualResultFields : List Str :=
  [str "threat_id", str "threat_ov", str "strategic_path", str "operational_steps",
   str "likelihood_score", str "max_severity", str "severity_score", str "risk_level",
   str "affected_assets"]

/-- The key set the specification document claims for a risk result. -/
def claimedResultFields : List Str :=
  [str "threat_id", str "ov_id", str "strategic_path", str "operational_steps",
   str "likelihood_score", str "max_severity", str "severity_score", str "risk_level",
   str "affected_assets"]

/-- The headers of a threats CSV that carries a `risk_sources` column. -/
def listFieldHeaders : List Str :=
  [str "sr_id", str "ov_id", str "strategic_path", str "operational_steps", str "risk_sources"]

/-- A threat row whose `risk_sources` cell is the empty string. -/
def rowEmptyListField : Row :=
  [(str "sr_id", str "SR1"), (str "ov_id", str "OV1"), (str "strategic_path", str "P"),
   (str "operational_steps", str "S1:Low"), (str "risk_sources", str "")]

/-- The same threat row with a populated `risk_sources` cell. -/
def rowSplitListField : Row :=
  [(str "sr_id", str "SR1"), (str "ov_id", str "OV1"), (str "strategic_path", str "P"),
   (str "operational_steps", str "S1:Low"), (str "risk_sources", str "RS1, RS2")]

/-- The headers of a threats CSV lacking the `operational_steps` column. -/
def missingColHeaders : List Str := [str "sr_id", str "ov_id", str "strategic_path"]

/-- A row of such a CSV. -/
def missingColRow : Row :=
  [(str "sr_id", str "SR1"), (str "ov_id", str "OV1"), (str "strategic_path", str "P")]

/-! ## Bounds of the scoring pipeline -/

lemma stepValue_bounds {s : Str} {v : ℕ} (h : stepValue s = some v) :
    1 ≤ v ∧ v ≤ 4 := by
  unfold stepValue at h
  split_ifs at h <;> simp_all <;> omega

lemma stepScore_bounds {s : Str} {v : ℕ} (h : stepScore s = some v) :
    1 ≤ v ∧ v ≤ 4 := by
  unfold stepScore at h
  rcases hs : pySplitFirst ':' s with _ | ⟨_, level⟩ <;> rw [hs] at h
  · exact absurd h (by simp)
  · exact stepValue_bounds h

lemma scores_bounds (t : Threat) : ∀ v ∈ t.scores, 1 ≤ v ∧ v ≤ 4 := by
  intro v hv
  unfold Threat.scores at hv
  rcases List.mem_filterMap.mp hv with ⟨a, _, ha⟩
  exact stepScore_bounds ha

lemma length_le_sum {l : List ℕ} (h : ∀ v ∈ l, 1 ≤ v) : l.length ≤ l.sum := by
  induction l with
  | nil => simp
  | cons x xs ih =>
    have hx := h x (by simp)
    have := ih (fun v hv => h v (by simp [hv]))
    simp only [List.length_cons, List.sum_cons]
    omega

lemma sum_le_four_mul {l : List ℕ} (h : ∀ v ∈ l, v ≤ 4) : l.sum ≤ 4 * l.length := by
  induction l with
  | nil => simp
  | cons x xs ih =>
    have hx := h x (by simp)
    have := ih (fun v hv => h v (by simp [hv]))
    simp only [List.length_cons, List.sum_cons]
    omega

/-- `likelihood_score` always lands in [1, 4]: each accumulated value does,
so the mean does, and the empty fallback is 1.0. -/
lemma likelihood_score_bounds (t : Threat) :
    1 ≤ t.likelihood_score ∧ t.likelihood_score ≤ 4 := by
  unfold Threat.likelihood_score
  by_cases hs : t.scores = []
  · rw [if_pos hs]; norm_num
  · rw [if_neg hs]
    have hlen : 0 < (t.scores.length : ℚ) := by
      have := List.length_pos.mpr hs
      exact_mod_cast this
    have hlo : t.scores.length ≤ t.scores.sum :=
      length_le_sum (fun v hv => (scores_bounds t v hv).1)
    have hhi : t.scores.sum ≤ 4 * t.scores.length :=
      sum_le_four_mul (fun v hv => (scores_bounds t v hv).2)
    constructor
    · rw [le_div_iff₀ hlen, one_mul]
      exact_mod_cast hlo
    · rw [div_le_iff₀ hlen]
      calc (t.scores.sum : ℚ) ≤ ((4 * t.scores.length : ℕ) : ℚ) := by exact_mod_cast hhi
        _ = 4 * (t.scores.length : ℚ) := by push_cast; ring

lemma pyInt_bounds {q : ℚ} (h1 : 1 ≤ q) (h4 : q ≤ 4) :
    1 ≤ pyInt q ∧ pyInt q ≤ 4 := by
  unfold pyInt
  rw [if_neg (by linarith : ¬ q < 0)]
  constructor
  · exact Int.le_floor.mpr (by exact_mod_cast h1)
  · have : ⌊q⌋ ≤ ⌊(4 : ℚ)⌋ := Int.floor_le_floor h4
    simpa using this

lemma pyGet_nonneg {α : Type} (l : List α) (i : ℤ) (h : 0 ≤ i) :
    pyGet l i = l.get? i.toNat := by
  unfold pyGet
  rw [if_neg (by omega : ¬ i < 0), if_pos h]

/-! ## The matrix lookup -/

/-- For a severity in 1..4, `risk_level` is the total matrix lookup at the
clamped indices: both indices stay in 0..3, so neither the negative-index
wrap nor the out-of-range raise of Python subscription is reached. -/
lemma risk_level_eq_matrixEntry (t : Threat) (sev : ℤ)
    (h1 : 1 ≤ sev) (h4 : sev ≤ 4) :
    t.risk_level sev =
      matrixEntry (min (sev - 1) 3).toNat (min (pyInt t.likelihood_score - 1) 3).toNat := by
  obtain ⟨hl1, hl4⟩ := likelihood_score_bounds t
  obtain ⟨hp1, hp4⟩ := pyInt_bounds hl1 hl4
  unfold Threat.risk_level matrixEntry
  have hlik0 : (0:ℤ) ≤ min (pyInt t.likelihood_score - 1) 3 := by omega
  rw [pyGet_nonneg _ _ (by omega : (0:ℤ) ≤ min (sev - 1) 3)]
  congr 1
  funext row
  exact pyGet_nonneg _ _ hlik0

lemma risk_level_isSome (t : Threat) (sev : ℤ) (h1 : 1 ≤ sev) (h4 : sev ≤ 4) :
    (t.risk_level sev).isSome = true := by
  rw [risk_level_eq_matrixEntry t sev h1 h4]
  obtain ⟨hl1, hl4⟩ := likelihood_score_bounds t
  obtain ⟨hp1, hp4⟩ := pyInt_bounds hl1 hl4
  have hs : (min (sev - 1) 3).toNat ≤ 3 := by omega
  have hl : (min (pyInt t.likelihood_score - 1) 3).toNat ≤ 3 := by omega
  unfold matrixEntry
  interval_cases h : (min (sev - 1) 3).toNat <;> interval_cases h2 : (min (pyInt t.likelihood_score - 1) 3).toNat <;> decide

/-! ## The risk engine -/

lemma ebind_ok {ε α β : Type} (a : α) (f : α → Except ε β) :
    (Except.ok a : Except ε α).bind f = f a := rfl

lemma ebind_err {ε α β : Type} (e : ε) (f : α → Except ε β) :
    (Except.error e : Except ε α).bind f = .error e := rfl

lemma severity_score_bounds (a : Asset) : 1 ≤ a.severity_score ∧ a.severity_score ≤ 4 := by
  unfold Asset.severity_score
  cases a.criticality <;> simp

lemma foldl_max_bounds {l : List ℕ} {acc : ℕ}
    (hacc : 1 ≤ acc ∧ acc ≤ 4) (h : ∀ v ∈ l, 1 ≤ v ∧ v ≤ 4) :
    1 ≤ l.foldl max acc ∧ l.foldl max acc ≤ 4 := by
  induction l generalizing acc with
  | nil => simpa using hacc
  | cons x xs ih =>
    have hx := h x (by simp)
    simp only [List.foldl_cons]
    exact ih (by omega) (fun v hv => h v (by simp [hv]))

/-- On a non-empty asset list, `max()` of the severity scores succeeds and
lands in 1..4. -/
lemma pyMax_severity {assets : List Asset} (h : assets ≠ []) :
    ∃ m, pyMax (assets.map Asset.severity_score) = .ok m ∧ 1 ≤ m ∧ m ≤ 4 := by
  rcases assets with _ | ⟨a, rest⟩
  · exact absurd rfl h
  · refine ⟨(rest.map Asset.severity_score).foldl max a.severity_score, rfl, ?_⟩
    exact foldl_max_bounds (severity_score_bounds a)
      (fun v hv => by
        rcases List.mem_map.mp hv with ⟨b, _, hb⟩
        exact hb ▸ severity_score_bounds b)

/-- On a non-empty asset list, one engine iteration succeeds and produces
exactly the source's result dict. -/
lemma threatResult_ok {assets : List Asset} (t : Threat) (h : assets ≠ []) :
    ∃ m rl, pyMax (assets.map Asset.severity_score) = .ok m ∧
      t.risk_level (m : ℤ) = some rl ∧
      threatResult assets t = .ok (mkResult assets t m rl) := by
  obtain ⟨m, hm, hm1, hm4⟩ := pyMax_severity h
  have hsome := risk_level_isSome t (m : ℤ) (by exact_mod_cast hm1) (by exact_mod_cast hm4)
  rcases hrl : t.risk_level (m : ℤ) with _ | rl
  · rw [hrl] at hsome; simp at hsome
  · refine ⟨m, rl, hm, hrl, ?_⟩
    unfold threatResult
    rw [hm]
    simp only [ebind_ok, hrl]

lemma mkResult_keys (assets : List Asset) (t : Threat) (m : ℕ) (rl : Str) :
    (mkResult assets t m rl).map Prod.fst =
      [str "threat_id", str "threat_ov", str "strategic_path", str "operational_steps",
       str "likelihood_score", str "max_severity", str "severity_score", str "risk_level",
       str "affected_assets"] := by
  rfl

/-- The engine succeeds exactly on a non-empty asset list or an empty
threat list. -/
lemma calculate_isOk_iff (assets : List Asset) (threats : List Threat) :
    (calculate_risk_levels assets threats).isOk = true ↔ (assets ≠ [] ∨ threats = []) := by
  induction threats with
  | nil => simp [calculate_risk_levels, Except.isOk, Except.toBool]
  | cons t ts ih =>
    by_cases h : assets = []
    · subst h
      simp [calculate_risk_levels, threatResult, pyMax, ebind_err, Except.isOk, Except.toBool]
    · obtain ⟨m, rl, _, _, hres⟩ := threatResult_ok t h
      simp only [calculate_risk_levels]
      rw [hres]
      simp only [ebind_ok]
      rcases hrec : calculate_risk_levels assets ts with e | rs
      · rw [hrec] at ih
        simp only [Except.isOk, Except.toBool] at ih
        exact absurd (ih.mpr (Or.inl h)) (by simp [ebind_err])
      · simp [ebind_ok, Except.isOk, Except.toBool, h]

/-- On a non-empty asset list every produced element has the source's key
list, and `affected_assets` holds all asset ids in load order. -/
lemma calculate_elements {assets : List Asset} (threats : List Threat) (h : assets ≠ []) :
    ∀ rs, calculate_risk_levels assets threats = .ok rs →
      rs.length = threats.length ∧
      ∀ r ∈ rs, r.map Prod.fst =
          [str "threat_id", str "threat_ov", str "strategic_path", str "operational_steps",
           str "likelihood_score", str "max_severity", str "severity_score", str "risk_level",
           str "affected_assets"] ∧
        (str "affected_assets", RVal.ls (assets.map Asset.id)) ∈ r := by
  induction threats with
  | nil =>
    intro rs hrs
    simp only [calculate_risk_levels] at hrs
    cases hrs
    simp
  | cons t ts ih =>
    intro rs hrs
    obtain ⟨m, rl, _, _, hres⟩ := threatResult_ok t h
    simp only [calculate_risk_levels] at hrs
    rw [hres] at hrs
    simp only [ebind_ok] at hrs
    rcases hrec : calculate_risk_levels assets ts with e | rs'
    · rw [hrec] at hrs; simp only [ebind_err] at hrs; cases hrs
    · rw [hrec] at hrs
      simp only [ebind_ok] at hrs
      cases hrs
      obtain ⟨hlen, helts⟩ := ih rs' hrec
      refine ⟨by simp [hlen], ?_⟩
      intro r hr
      rcases List.mem_cons.mp hr with hr | hr
      · subst hr
        exact ⟨mkResult_keys assets t m rl, by unfold mkResult; simp⟩
      · exact helts r hr

/-! ## The threat loader -/

lemma processThreatRow_missing {vh : List Str} {row : Row}
    (h : missingFields (cleanThreatRow vh row) ≠ []) :
    processThreatRow vh row = .error (missingMsg (missingFields (cleanThreatRow vh row))) := by
  unfold processThreatRow
  rw [if_neg h]

/-- The row loop reports the first failing row, wrapped with its 1-based
row number. -/
lemma loadThreatRows_first_err (file : Str) (vh : List Str) (e : Str)
    (post : List Row) :
    ∀ (pre : List Row) (n : ℕ) (row : Row),
      (∀ r ∈ pre, (processThreatRow vh r).isOk = true) →
      processThreatRow vh row = .error e →
      loadThreatRows file vh n (pre ++ row :: post) = .error (rowErr file (n + pre.length) e) := by
  intro pre
  induction pre with
  | nil =>
    intro n row _ herr
    simp only [List.nil_append, loadThreatRows, herr, List.length_nil, Nat.add_zero]
  | cons x xs ih =>
    intro n row hok herr
    have hx := hok x (by simp)
    rcases hpx : processThreatRow vh x with e' | t
    · rw [hpx] at hx; simp [Except.isOk, Except.toBool] at hx
    · have hrec := ih (n + 1) row (fun r hr => hok r (by simp [hr])) herr
      simp only [List.cons_append, loadThreatRows, hpx, List.append_eq, hrec, List.length_cons]
      have heq : n + 1 + xs.length = n + (xs.length + 1) := by omega
      rw [heq]

/-- Any row that fails to process prevents any successful load result. -/
lemma loadThreatRows_no_ok (file : Str) (vh : List Str) :
    ∀ (rows : List Row) (n : ℕ) (r : Row), r ∈ rows →
      (processThreatRow vh r).isOk = false →
      ∀ ts, loadThreatRows file vh n rows ≠ .ok ts := by
  intro rows
  induction rows with
  | nil => intro n r hr; cases hr
  | cons x xs ih =>
    intro n r hr hbad ts hok
    rcases hpx : processThreatRow vh x with e | t
    · simp only [loadThreatRows, hpx] at hok
      cases hok
    · rcases List.mem_cons.mp hr with hr | hr
      · subst hr; rw [hpx] at hbad; simp [Except.isOk, Except.toBool] at hbad
      · rcases hrec : loadThreatRows file vh (n + 1) xs with e | ts'
        · simp only [loadThreatRows, hpx, hrec] at hok
          cases hok
        · exact ih (n + 1) r hr hbad ts' hrec

lemma sampleThreat_likelihood : sampleThreat.likelihood_score = 3 := by
  unfold Threat.likelihood_score
  rw [show sampleThreat.scores = [3, 3] from by decide, if_neg (by decide)]
  norm_num

/-! ## Claims -/

/-- C1: for every constructible Threat and every severity in {1,2,3,4},
`risk_level` returns exactly the fixed 4x4 matrix entry at row
`min(int(severity)-1, 3)` and column `min(int(likelihood)-1, 3)`, the
likelihood index coming from truncation toward zero with only the upper
bound clamped; in particular severity 4 with likelihood 3.0 gives
"Critical" and severity 1 with likelihood 1.0 gives "Low". -/
theorem C1_risk_matrix :
    (∀ (t : Threat) (sev : ℤ), t.constructible →
      (sev = 1 ∨ sev = 2 ∨ sev = 3 ∨ sev = 4) →
      t.risk_level sev =
        matrixEntry (min (sev - 1) 3).toNat (min (pyInt t.likelihood_score - 1) 3).toNat ∧
      (t.risk_level sev).isSome = true) ∧
    (∀ t : Threat, t.constructible → t.likelihood_score = 3 →
      t.risk_level 4 = some (str "Critical")) ∧
    (∀ t : Threat, t.constructible → t.likelihood_score = 1 →
      t.risk_level 1 = some (str "Low")) := by
  refine ⟨?_, ?_, ?_⟩
  · intro t sev _ hsev
    have h1 : 1 ≤ sev := by rcases hsev with h | h | h | h <;> omega
    have h4 : sev ≤ 4 := by rcases hsev with h | h | h | h <;> omega
    exact ⟨risk_level_eq_matrixEntry t sev h1 h4, risk_level_isSome t sev h1 h4⟩
  · intro t _ hlik
    rw [risk_level_eq_matrixEntry t 4 (by norm_num) (by norm_num), hlik,
      show pyInt 3 = 3 from by unfold pyInt; norm_num]
    decide
  · intro t _ hlik
    rw [risk_level_eq_matrixEntry t 1 (by norm_num) (by norm_num), hlik,
      show pyInt 1 = 1 from by unfold pyInt; norm_num]
    decide

/-- Witness for C1 at the sample threat (likelihood 3.0, severity 4). -/
theorem C1_risk_matrix_witness :
    Threat.risk_level sampleThreat 4 = some (str "Critical") :=
  C1_risk_matrix.2.1 sampleThreat (by decide) sampleThreat_likelihood

/-- C2: `likelihood_score` splits `operational_steps` on commas, splits
each candidate on its first colon, trims the level, averages the
recognized level values {Low:1, Medium:2, High:3, Critical:4}, skipping
unparseable candidates silently, and returns 1.0 when nothing
contributes; in particular "A:Low,B:High,C:Medium" gives 2.0 and
"A:Unknown" gives 1.0. -/
theorem C2_likelihood_mean :
    (∀ t : Threat,
      t.scores = ((pySplit ',' t.operational_steps).map pyStrip).filterMap stepScore ∧
      t.likelihood_score =
        if t.scores = [] then 1 else (t.scores.sum : ℚ) / (t.scores.length : ℚ)) ∧
    Threat.likelihood_score
      ⟨str "T1", str "O1", str "P1", str "A:Low,B:High,C:Medium", [], []⟩ = 2 ∧
    Threat.likelihood_score ⟨str "T1", str "O1", str "P1", str "A:Unknown", [], []⟩ = 1 := by
  refine ⟨fun t => ⟨rfl, rfl⟩, ?_, ?_⟩
  · unfold Threat.likelihood_score
    rw [show Threat.scores ⟨str "T1", str "O1", str "P1", str "A:Low,B:High,C:Medium", [], []⟩
        = [1, 3, 2] from by decide, if_neg (by decide)]
    norm_num
  · unfold Threat.likelihood_score
    rw [if_pos (by decide)]

/-- C3: constructing an Asset maps the four criticality levels to
severity scores 1..4, and any other criticality string is rejected with a
validation error. -/
theorem C3_severity_mapping :
    (∀ id ty lb : Str,
      (mkAsset id ty lb (str "Low")).map Asset.severity_score = .ok 1 ∧
      (mkAsset id ty lb (str "Medium")).map Asset.severity_score = .ok 2 ∧
      (mkAsset id ty lb (str "High")).map Asset.severity_score = .ok 3 ∧
      (mkAsset id ty lb (str "Critical")).map Asset.severity_score = .ok 4) ∧
    (∀ id ty lb s : Str,
      s ≠ str "Low" → s ≠ str "Medium" → s ≠ str "High" → s ≠ str "Critical" →
      mkAsset id ty lb s = .error (str "value is not a valid enumeration member")) := by
  constructor
  · intro id ty lb
    refine ⟨?_, ?_, ?_, ?_⟩ <;> rfl
  · intro id ty lb s h1 h2 h3 h4
    unfold mkAsset CriticalityLevel.ofStr
    rw [if_neg h1, if_neg h2, if_neg h3, if_neg h4]

/-- Witness for C3 at the lowercase string "low". -/
theorem C3_severity_mapping_witness :
    mkAsset (str "A1") (str "Data") (str "DB") (str "low") =
      .error (str "value is not a valid enumeration member") :=
  C3_severity_mapping.2 _ _ _ _ (by decide) (by decide) (by decide) (by decide)

/-- C4 as stated is false: the engine result dicts carry the key
`threat_ov`, not the claimed `ov_id` — shown on a concrete run. -/
theorem C4_result_fields_counterexample :
    (calculate_risk_levels [sampleAsset] [sampleThreat]).map
        (fun rs => rs.map (fun r => r.map Prod.fst)) = .ok [actualResultFields] ∧
    actualResultFields ≠ claimedResultFields ∧
    claimedResultFields.contains (str "ov_id") = true ∧
    actualResultFields.contains (str "ov_id") = false := by
  refine ⟨?_, by decide, by decide, by decide⟩
  obtain ⟨m, rl, hm, hrl, hres⟩ :=
    threatResult_ok sampleThreat (show [sampleAsset] ≠ [] by decide)
  simp only [calculate_risk_levels, hres, ebind_ok]
  rfl

/-- C4 amended: on every non-empty asset list the engine succeeds and
each produced result dict has exactly the fields {threat_id, threat_ov,
strategic_path, operational_steps, likelihood_score, max_severity,
severity_score, risk_level, affected_assets}, with `affected_assets` the
ids of all loaded assets in load order. -/
theorem C4_result_fields (assets : List Asset) (threats : List Threat) (h : assets ≠ []) :
    (calculate_risk_levels assets threats).isOk = true ∧
    ∀ rs, calculate_risk_levels assets threats = .ok rs →
      rs.length = threats.length ∧
      ∀ r ∈ rs, r.map Prod.fst = actualResultFields ∧
        (str "affected_assets", RVal.ls (assets.map Asset.id)) ∈ r := by
  refine ⟨(calculate_isOk_iff assets threats).mpr (Or.inl h), ?_⟩
  intro rs hrs
  exact calculate_elements threats h rs hrs

/-- Witness for C4 (amended) at the sample input. -/
theorem C4_result_fields_witness :
    (calculate_risk_levels [sampleAsset] [sampleThreat]).isOk = true :=
  (C4_result_fields [sampleAsset] [sampleThreat] (by decide)).1

/-- C5: evaluating the loader at a threat row whose `risk_sources` cell
is empty: the guard leaves the raw empty string in the cleaned row, so
the `list[str]` field rejects it and row processing fails — no Threat
with an empty sequence is produced, contradicting the claim; a non-empty
cell is split on commas with each element trimmed, in order. -/
theorem C5_empty_list_field :
    processThreatRow (validHeadersOf listFieldHeaders) rowEmptyListField =
      .error (listTypeErr (str "risk_sources")) ∧
    processThreatRow (validHeadersOf listFieldHeaders) rowSplitListField =
      .ok ⟨str "SR1", str "OV1", str "P", str "S1:Low", [str "RS1", str "RS2"], []⟩ := by
  decide

/-- C6: Threat construction fails exactly when `operational_steps` is
empty or has no colon, with the message naming the required "Step:Level"
structure; otherwise construction succeeds unchanged, regardless of
whether any individual step parses. -/
theorem C6_steps_validator :
    (∀ sr ov path steps rs tos,
      ((mkThreat sr ov path steps rs tos).isOk = true ↔
        ¬(steps = [] ∨ steps.contains ':' = false)) ∧
      (steps = [] ∨ steps.contains ':' = false →
        mkThreat sr ov path steps rs tos = .error stepsFormatErr) ∧
      (¬(steps = [] ∨ steps.contains ':' = false) →
        mkThreat sr ov path steps rs tos = .ok ⟨sr, ov, path, steps, rs, tos⟩)) ∧
    hasPhrase (sq ++ str "Step:Level" ++ sq) stepsFormatErr = true := by
  refine ⟨?_, by decide⟩
  intro sr ov path steps rs tos
  unfold mkThreat
  by_cases h : steps = [] ∨ steps.contains ':' = false
  · rw [if_pos h]
    exact ⟨iff_of_false (by simp [Except.isOk, Except.toBool]) (not_not_intro h),
      fun _ => rfl, fun hc => absurd h hc⟩
  · rw [if_neg h]
    exact ⟨iff_of_true (by simp [Except.isOk, Except.toBool]) h,
      fun hc => absurd hc h, fun _ => rfl⟩

/-- Witness for C6 at `operational_steps = "invalid_format"` (no colon). -/
theorem C6_steps_validator_witness :
    mkThreat (str "SR") (str "OV") (str "P") (str "invalid_format") [] [] =
      .error stepsFormatErr :=
  (C6_steps_validator.1 _ _ _ _ _ _).2.1 (Or.inr (by decide))

/-- C7: the engine raises exactly when the asset list is empty and at
least one threat is processed; with a non-empty asset list it never
raises. -/
theorem C7_engine_raises_iff :
    ∀ (assets : List Asset) (threats : List Threat),
      (calculate_risk_levels assets threats).isOk = false ↔
        (assets = [] ∧ threats ≠ []) := by
  intro assets threats
  have h := calculate_isOk_iff assets threats
  constructor
  · intro hf
    have hn : ¬(assets ≠ [] ∨ threats = []) := by
      intro hor
      rw [h.mpr hor] at hf
      cases hf
    push_neg at hn
    exact hn
  · rintro ⟨ha, ht⟩
    cases hb : (calculate_risk_levels assets threats).isOk
    · rfl
    · rcases h.mp hb with hne | hte
      · exact absurd ha hne
      · exact absurd hte ht

/-- Witness for C7: an empty asset list with one threat raises. -/
theorem C7_engine_raises_iff_witness :
    (calculate_risk_levels [] [sampleThreat]).isOk = false :=
  (C7_engine_raises_iff [] [sampleThreat]).mpr ⟨rfl, by decide⟩

/-- C8: a row missing a required field after cleaning prevents any
successful load (no partial result), and when the earlier rows process
fine the load fails with exactly the wrapped "Missing required fields"
message naming the missing fields and the 1-based row number. -/
theorem C8_missing_required_fields :
    (∀ (file : Str) (headers : List Str) (rows : List Row) (r : Row), r ∈ rows →
      missingFields (cleanThreatRow (validHeadersOf headers) r) ≠ [] →
      ∀ ts, load_threats file headers rows ≠ .ok ts) ∧
    (∀ (file : Str) (headers : List Str) (pre : List Row) (row : Row) (post : List Row),
      (∀ r ∈ pre, (processThreatRow (validHeadersOf headers) r).isOk = true) →
      missingFields (cleanThreatRow (validHeadersOf headers) row) ≠ [] →
      load_threats file headers (pre ++ row :: post) =
        .error (rowErr file pre.length
          (missingMsg (missingFields (cleanThreatRow (validHeadersOf headers) row))))) := by
  constructor
  · intro file headers rows r hr hmiss ts
    apply loadThreatRows_no_ok file (validHeadersOf headers) rows 0 r hr
    rw [processThreatRow_missing hmiss]
    rfl
  · intro file headers pre row post hok hmiss
    unfold load_threats
    have := loadThreatRows_first_err file (validHeadersOf headers) _ post pre 0 row hok
      (processThreatRow_missing hmiss)
    simpa using this

/-- Witness for C8: a CSV without the `operational_steps` column fails on
its first row with the wrapped missing-fields message. -/
theorem C8_missing_required_fields_witness :
    load_threats (str "threats.csv") missingColHeaders [missingColRow] =
      .error (rowErr (str "threats.csv") 0
        (missingMsg (missingFields (cleanThreatRow (validHeadersOf missingColHeaders) missingColRow)))) :=
  C8_missing_required_fields.2 (str "threats.csv") missingColHeaders [] missingColRow []
    (by simp) (by decide)

/-- C9: the engine is deterministic — identical asset and threat
collections give identical result lists. -/
theorem C9_deterministic (a1 a2 : List Asset) (t1 t2 : List Threat)
    (ha : a1 = a2) (ht : t1 = t2) :
    calculate_risk_levels a1 t1 = calculate_risk_levels a2 t2 := by
  rw [ha, ht]

/-- Witness for C9 at the sample input. -/
theorem C9_deterministic_witness :
    calculate_risk_levels [sampleAsset] [sampleThreat] =
      calculate_risk_levels [sampleAsset] [sampleThreat] :=
  C9_deterministic [sampleAsset] [sampleAsset] [sampleThreat] [sampleThreat] rfl rfl

/-- C10: every constructible Threat has likelihood in [1, 4], so the
likelihood index `min(int(likelihood)-1, 3)` stays in [0, 3] and the
unclamped lower bound of the matrix lookup is never reached through the
likelihood axis. -/
theorem C10_likelihood_in_range (t : Threat) (h : t.constructible) :
    1 ≤ t.likelihood_score ∧ t.likelihood_score ≤ 4 ∧
    0 ≤ min (pyInt t.likelihood_score - 1) 3 ∧
    min (pyInt t.likelihood_score - 1) 3 ≤ 3 := by
  obtain ⟨h1, h4⟩ := likelihood_score_bounds t
  obtain ⟨p1, p4⟩ := pyInt_bounds h1 h4
  exact ⟨h1, h4, by omega, by omega⟩

/-- Witness for C10 at the sample threat. -/
theorem C10_likelihood_in_range_witness :
    1 ≤ sampleThreat.likelihood_score ∧ sampleThreat.likelihood_score ≤ 4 ∧
    0 ≤ min (pyInt sampleThreat.likelihood_score - 1) 3 ∧
    min (pyInt sampleThreat.likelihood_score - 1) 3 ≤ 3 :=
  C10_likelihood_in_range sampleThreat (by decide)

end EbiosRM
